import Mathlib

/-!
Verification development for the Compactor GUI bridge (`src/gui.rs`).

The Rust source is shallowly embedded: pure computations (JSON encoding,
snapshot normalization, the `invoke_handler` routing logic) become Lean
functions; side effects (dialogs, `wv.eval`, channel sends, logging) become
explicit `Effect` values collected in traces; collaborator outcomes that live
outside `src/` (the Config store's `globset` validator, `ConfigHandle::save`,
the native folder picker, the build-time version identifiers) are passed in as
explicit parameters or modelled from the spec, as marked on each definition.
-/

/-- JSON values, as produced by serde_json for the bridge's message types.
Numeric payloads (the optional `pct : f32`) are modelled as rationals: every
finite `f32` is a rational, and no claim under verification depends on the
decimal spelling of a numeral. -/
inductive Json where
  | null
  | bool (b : Bool)
  | num (q : ℚ)
  | str (s : String)
  | arr (xs : List Json)
  | obj (fields : List (String × Json))

/-- Hex digit (lowercase), as serde_json prints `\u00XX` escapes. -/
def hexDigit (n : Nat) : Char :=
  if n < 10 then Char.ofNat (48 + n) else Char.ofNat (87 + n)

/-- Four-digit lowercase hex, for `\uXXXX` escapes. -/
def hex4 (n : Nat) : String :=
  String.mk [hexDigit (n / 4096 % 16), hexDigit (n / 256 % 16),
             hexDigit (n / 16 % 16), hexDigit (n % 16)]

/-- serde_json's escaping of a single character inside a JSON string literal:
quote and backslash are backslash-escaped, the named control characters get
their short forms, remaining control characters get `\u00XX`. -/
def escapeChar (c : Char) : String :=
  if c = '"' then "\\\""
  else if c = '\\' then "\\\\"
  else if c = '\x08' then "\\b"
  else if c = '\t' then "\\t"
  else if c = '\n' then "\\n"
  else if c = '\x0c' then "\\f"
  else if c = '\r' then "\\r"
  else if c.toNat < 32 then "\\u" ++ hex4 c.toNat
  else String.singleton c

/-- Body of a JSON string literal for `s`. -/
def jsonEscape (s : String) : String :=
  String.join (s.data.map escapeChar)

/-- A JSON string literal: what `serde_json::to_string` produces for a Rust
`String` — this is the second encoding step of `GuiWrapper::send`. -/
def strLit (s : String) : String :=
  "\"" ++ jsonEscape s ++ "\""

/-- Rendering of a numeric literal. serde_json prints the shortest decimal
form of the float; the claims under verification never depend on the numeral's
spelling, only on the literal being present (vs. `null`). -/
def renderNum (q : ℚ) : String :=
  toString q.num ++ (if q.den = 1 then "" else "/" ++ toString q.den)

mutual

/-- Compact JSON text of a value, as `serde_json::to_string` produces it:
no whitespace, object fields in declaration order. -/
def render : Json → String
  | .null => "null"
  | .bool b => cond b "true" "false"
  | .num q => renderNum q
  | .str s => strLit s
  | .arr xs => "[" ++ renderElems xs ++ "]"
  | .obj fs => "\x7b" ++ renderMembers fs ++ "\x7d"

def renderElems : List Json → String
  | [] => ""
  | [x] => render x
  | x :: xs => render x ++ "," ++ renderElems xs

def renderMembers : List (String × Json) → String
  | [] => ""
  | [(k, v)] => strLit k ++ ":" ++ render v
  | (k, v) :: xs => strLit k ++ ":" ++ render v ++ "," ++ renderMembers xs

end

/-- Field lookup in a JSON object (first occurrence). -/
def lookupField : List (String × Json) → String → Option Json
  | [], _ => none
  | (k, v) :: fs, key => if k = key then some v else lookupField fs key

def Json.getField : Json → String → Option Json
  | .obj fs, key => lookupField fs key
  | _, _ => none

/-- `GuiRequest` from `src/gui.rs`: messages received from the GUI, decoded
with an internal `type` tag. -/
inductive GuiRequest where
  | OpenUrl (url : String)
  | SaveConfig (decimal : Bool) (compression : String) (excludes : String)
  | ResetConfig
  | ChooseFolder
  | Compress
  | Decompress
  | Pause
  | Resume
  | Analyse
  | Stop
  | Quit
deriving DecidableEq

/-- `GuiResponse` from `src/gui.rs`: messages sent to the GUI, serialized with
an internal `type` tag. `PathBuf` payloads serialize as strings; the
`FolderSummary` payload lives in `folder.rs` (outside `src/`) and is modelled
from the spec as its opaque JSON value. -/
inductive GuiResponse where
  | Version (date : String) (version : String)
  | Config (decimal : Bool) (compression : String) (excludes : String)
  | Folder (path : String)
  | Status (status : String) (pct : Option ℚ)
  | FolderSummary (info : Json)
  | Paused
  | Resumed
  | Scanned
  | Stopped
  | Compacting

/-- serde's internally-tagged (`#[serde(tag = "type")]`) JSON encoding of a
`GuiResponse`: the tag first, then the variant's fields in declaration order.
An `Option` field serializes as `null` when absent. -/
def encode : GuiResponse → Json
  | .Version date version =>
      .obj [("type", .str "Version"), ("date", .str date), ("version", .str version)]
  | .Config decimal compression excludes =>
      .obj [("type", .str "Config"), ("decimal", .bool decimal),
            ("compression", .str compression), ("excludes", .str excludes)]
  | .Folder path =>
      .obj [("type", .str "Folder"), ("path", .str path)]
  | .Status status pct =>
      .obj [("type", .str "Status"), ("status", .str status),
            ("pct", match pct with | none => .null | some q => .num q)]
  | .FolderSummary info =>
      .obj [("type", .str "FolderSummary"), ("info", info)]
  | .Paused => .obj [("type", .str "Paused")]
  | .Resumed => .obj [("type", .str "Resumed")]
  | .Scanned => .obj [("type", .str "Scanned")]
  | .Stopped => .obj [("type", .str "Stopped")]
  | .Compacting => .obj [("type", .str "Compacting")]

/-- Modelled from the spec: the UI-side dispatcher (`ui/app.js`, outside
`src/`) receives one parsed JSON value and dispatches on its `type`
discriminator; the wire forms are the table in spec section 6. -/
def decode (j : Json) : Option GuiResponse :=
  match j.getField "type" with
  | some (.str t) =>
    if t = "Version" then
      match j.getField "date", j.getField "version" with
      | some (.str d), some (.str v) => some (.Version d v)
      | _, _ => none
    else if t = "Config" then
      match j.getField "decimal", j.getField "compression", j.getField "excludes" with
      | some (.bool dec), some (.str c), some (.str e) => some (.Config dec c e)
      | _, _, _ => none
    else if t = "Folder" then
      match j.getField "path" with
      | some (.str p) => some (.Folder p)
      | _ => none
    else if t = "Status" then
      match j.getField "status", j.getField "pct" with
      | some (.str s), some .null => some (.Status s none)
      | some (.str s), some (.num q) => some (.Status s (some q))
      | _, _ => none
    else if t = "FolderSummary" then
      match j.getField "info" with
      | some info => some (.FolderSummary info)
      | none => none
    else if t = "Paused" then some .Paused
    else if t = "Resumed" then some .Resumed
    else if t = "Scanned" then some .Scanned
    else if t = "Stopped" then some .Stopped
    else if t = "Compacting" then some .Compacting
    else none
  | _ => none

/-- `serde_json::to_string(msg)` for a `GuiResponse`: render its encoding. -/
def serde_to_string (msg : GuiResponse) : String :=
  render (encode msg)

/-- The evaluation instruction built by `GuiWrapper::send` (gui.rs:79-87):
the message JSON is re-encoded a second time as a JSON string literal
(`to_string(msg).and_then(|s| to_string(&s))`) and embedded in
`Response.dispatch(JSON.parse(..))`. -/
def send_js (msg : GuiResponse) : String :=
  "Response.dispatch(JSON.parse(" ++ strLit (serde_to_string msg) ++ "))"

/-- The evaluation instruction built by `message_dispatch` (gui.rs:301-308):
the message JSON is embedded directly, single-encoded, in
`Response.dispatch(..)`. -/
def message_dispatch_js (msg : GuiResponse) : String :=
  "Response.dispatch(" ++ serde_to_string msg ++ ")"

/-- Modelled from the spec: the compression-scheme identifier. The scheme
inventory lives in the Config collaborator (`config.rs`, outside `src/`); the
spec only requires each scheme to have a canonical name, a parser accepting
the canonical names, and a default used when parsing fails. The routing logic
under verification is independent of the inventory, so a small concrete set
suffices. -/
inductive Compression where
  | xpress4k
  | xpress8k
  | xpress16k
  | lzx
deriving DecidableEq

/-- Modelled from the spec: the scheme used when the submitted identifier does
not parse (`compression.parse().unwrap_or_default()`). -/
def Compression.default : Compression := .xpress8k

/-- Canonical name of a scheme (`s.compression.to_string()`). -/
def Compression.name : Compression → String
  | .xpress4k => "xpress4k"
  | .xpress8k => "xpress8k"
  | .xpress16k => "xpress16k"
  | .lzx => "lzx"

/-- Parser for scheme identifiers (`compression.parse()`): succeeds exactly on
the canonical names. -/
def Compression.parse (s : String) : Option Compression :=
  if s = "xpress4k" then some .xpress4k
  else if s = "xpress8k" then some .xpress8k
  else if s = "xpress16k" then some .xpress16k
  else if s = "lzx" then some .lzx
  else none

/-- Splitting accumulator: Rust `str::split(sep)` semantics — the empty
string yields `[""]`, adjacent or trailing separators yield empty pieces. -/
def splitCharAux (sep : Char) : List Char → List Char → List String
  | [], acc => [String.mk acc.reverse]
  | c :: cs, acc =>
      if c = sep then String.mk acc.reverse :: splitCharAux sep cs []
      else splitCharAux sep cs (c :: acc)

/-- Rust `str::split(sep)` over a single-character separator, as the
SaveConfig arm applies it to the exclude string (`excludes.split('\n')`). -/
def splitChar (sep : Char) (s : String) : List String :=
  splitCharAux sep s.data []

/-- Rust `[String]::join(sep)`, as the Config notification applies it to the
exclude list (`s.excludes.join("\n")`). -/
def joinWith (sep : String) : List String → String
  | [] => ""
  | [x] => x
  | x :: xs => x ++ sep ++ joinWith sep xs

/-- Modelled from the spec: the Settings Snapshot held by the Config
collaborator (`config.rs`, outside `src/`) — decimal-display flag,
compression scheme, exclude-pattern list. -/
structure Config where
  decimal : Bool
  compression : Compression
  excludes : List String
deriving DecidableEq

/-- Modelled from the spec: `Config::default()`, the snapshot used by the
Reset-settings path. The concrete defaults live outside `src/`; no claim
depends on their values. -/
def Config.default : Config :=
  { decimal := false, compression := Compression.default, excludes := [] }

/-- The snapshot the SaveConfig arm constructs from the payload
(gui.rs:208-212): an unparsable compression identifier silently falls back to
the default scheme, and the newline-separated exclude string is split. -/
def mkSnapshot (decimal : Bool) (compression : String) (excludes : String) : Config :=
  { decimal := decimal
    compression := (Compression.parse compression).getD Compression.default
    excludes := splitChar '\n' excludes }

/-- The normalized Config notification built from a snapshot: the compression
scheme re-serialized to its canonical name, the exclude list re-joined with
newlines (gui.rs:99-103, 223-227, 246-250). -/
def configResponse (s : Config) : GuiResponse :=
  .Config s.decimal s.compression.name (joinWith "\n" s.excludes)

/-- Outcomes of the collaborator calls the `invoke_handler` makes: the Config
store's `globset` validator and `ConfigHandle::save` (both in `config.rs` /
`persistence.rs`, outside `src/`); the handler's behaviour is verified for
every possible outcome. -/
structure Collaborators where
  validate : Config → Except String Unit
  save : Config → Except String Unit

/-- The configuration state the handler can touch: the in-memory snapshot
(`config().write().replace(..)`) and the persisted one (`c.save()`). -/
structure HandlerState where
  current : Config
  persisted : Config
deriving DecidableEq

/-- Observable side effects of one `invoke_handler` call, in program order. -/
inductive Effect where
  | openUrl (url : String)
  | modalError (title : String) (msg : String)
  | eval (js : String)
  | enqueue (req : GuiRequest)
  | logUnhandled (err : String)
deriving DecidableEq

/-- The shared notify-then-persist path of the SaveConfig (post-validation)
and ResetConfig arms (gui.rs:220-238, 241-261): dispatch the normalized
Config notification, replace the in-memory snapshot, attempt to persist, and
raise a modal error if persisting fails — without retracting the notification
or rolling back the in-memory replacement. -/
def saveConfigPath (env : Collaborators) (st : HandlerState) (s : Config) :
    HandlerState × List Effect :=
  ({ current := s
     persisted := match env.save s with | .ok _ => s | .error _ => st.persisted },
   Effect.eval (message_dispatch_js (configResponse s)) ::
     (match env.save s with
      | .ok _ => []
      | .error e => [Effect.modalError "Settings Error" ("Error saving settings: " ++ e)]))

/-- The `invoke_handler` closure of `spawn_gui` (gui.rs:198-272). Its input is
the result of `serde_json::from_str::<GuiRequest>(arg)`; `.error err` is the
parse-failure case, whose logged line carries the raw message text and the
parse error (we record the error). The function is total: every arm returns
normally (`Ok(())` in the source). -/
def invoke_handler (env : Collaborators) (st : HandlerState)
    (arg : Except String GuiRequest) : HandlerState × List Effect :=
  match arg with
  | .ok (.OpenUrl url) => (st, [Effect.openUrl url])
  | .ok (.SaveConfig decimal compression excludes) =>
      let s := mkSnapshot decimal compression excludes
      match env.validate s with
      | .error msg => (st, [Effect.modalError "Settings Error" msg])
      | .ok _ => saveConfigPath env st s
  | .ok .ResetConfig => saveConfigPath env st Config.default
  | .ok msg => (st, [Effect.enqueue msg])
  | .error err => (st, [Effect.logUnhandled err])

/-- The capacity of the command mailbox, from
`bounded::<GuiRequest>(128)` (gui.rs:189). -/
def MAILBOX_CAPACITY : Nat := 128

/-- Modelled from the spec: the Command Mailbox,
`crossbeam_channel::bounded(128)` (the channel implementation is an external
crate). Spec section 4.1 fixes its semantics: a FIFO buffer of fixed capacity
128; an enqueue at capacity blocks the producer (here: returns `none`, the
producer makes no progress and the buffer is unchanged) until the consumer
drains an entry; dequeue takes the oldest entry. -/
structure Mailbox where
  entries : List GuiRequest
deriving DecidableEq

/-- Enqueue: appends when below capacity, otherwise the producer blocks
(`none`). Entries are never dropped or reordered. -/
def Mailbox.enqueue (m : Mailbox) (r : GuiRequest) : Option Mailbox :=
  if m.entries.length < MAILBOX_CAPACITY then some ⟨m.entries ++ [r]⟩ else none

/-- Dequeue: takes the oldest entry; `none` when empty (the consumer blocks). -/
def Mailbox.dequeue (m : Mailbox) : Option (GuiRequest × Mailbox) :=
  match m with
  | ⟨[]⟩ => none
  | ⟨x :: xs⟩ => some (x, ⟨xs⟩)

/-- Enqueue a whole command sequence in submission order; `none` if any
enqueue would block. -/
def Mailbox.enqueueAll (m : Mailbox) : List GuiRequest → Option Mailbox
  | [] => some m
  | r :: rs =>
      match m.enqueue r with
      | some m2 => m2.enqueueAll rs
      | none => none

/-- Repeatedly dequeue with the given fuel, collecting the commands the
consumer observes, in order. -/
def drainFuel : Nat → Mailbox → List GuiRequest
  | 0, _ => []
  | fuel + 1, m =>
      match m.dequeue with
      | none => []
      | some (x, m2) => x :: drainFuel fuel m2

/-- All commands the consumer observes by dequeueing until empty. -/
def Mailbox.drainAll (m : Mailbox) : List GuiRequest :=
  drainFuel m.entries.length m

/-- Modelled from the spec: the static build identifiers baked in at compile
time (`env!("VERGEN_BUILD_DATE")`, `env!("CARGO_PKG_VERSION")`,
`env!("VERGEN_SHA_SHORT")`); their values are build-environment dependent
opaque strings. -/
def VERGEN_BUILD_DATE : String := "VERGEN_BUILD_DATE"

def CARGO_PKG_VERSION : String := "CARGO_PKG_VERSION"

def VERGEN_SHA_SHORT : String := "VERGEN_SHA_SHORT"

/-- The Version notification built by `GuiWrapper::version` (gui.rs:89-95). -/
def version_response : GuiResponse :=
  .Version VERGEN_BUILD_DATE (CARGO_PKG_VERSION ++ "-" ++ VERGEN_SHA_SHORT)

/-- A `GuiWrapper::send` of a message, as an effect: the double-encoded
evaluation instruction is scheduled onto the UI thread. -/
def send_effect (msg : GuiResponse) : Effect :=
  Effect.eval (send_js msg)

/-- Effects of `GuiWrapper::version` (gui.rs:89-95): one send of the Version
notification. -/
def version_effects : List Effect :=
  [send_effect version_response]

/-- Effects of `GuiWrapper::config` (gui.rs:97-104): one send of the Config
notification for `current`, the settings snapshot read from the persistence
collaborator (`config().read().unwrap().current()`). -/
def config_effects (current : Config) : List Effect :=
  [send_effect (configResponse current)]

/-- Effects of `GuiWrapper::new` (gui.rs:72-77): `version()` then `config()`,
unconditionally. -/
def new_effects (current : Config) : List Effect :=
  version_effects ++ config_effects current

/-- The folder-picker dialog parameters (`wfd::DialogParams`, gui.rs:154-159). -/
structure DialogParams where
  options : Nat
  title : String
  default_folder : String
deriving DecidableEq

/-- The `wfd::FOS_PICKFOLDERS` flag value. -/
def FOS_PICKFOLDERS : Nat := 32

/-- Modelled from the spec: the surroundings of one UI-thread execution of
the `choose_folder` closure — the running program's own directory as
determined by `current_exe().ok().and_then(parent).and_then(to_str)` (absent
if any step fails), and the outcome of the native picker `wfd::open_dialog`
(the selected path, or an error value covering both cancel and failure). -/
structure FolderPickEnv where
  exe_dir : Option String
  dialog_result : Except Unit String

/-- The default starting location the closure computes (gui.rs:148-152):
the program's own directory, or the empty string if it cannot be determined
(`unwrap_or_default`). -/
def default_folder_of (env : FolderPickEnv) : String :=
  env.exe_dir.getD ""

/-- The dialog parameters the closure passes to the picker (gui.rs:154-159). -/
def choose_folder_params (env : FolderPickEnv) : DialogParams :=
  { options := FOS_PICKFOLDERS
    title := "Select a directory"
    default_folder := default_folder_of env }

/-- The values the closure writes to the one-shot slot (gui.rs:161-163): a
single send of `open_dialog(params).map(|res| res.selected_file_path).ok()`. -/
def choose_folder_sends (env : FolderPickEnv) : List (Option String) :=
  [env.dialog_result.toOption]

/-- Modelled from the spec: the blocking receive on the one-shot
`bounded(1)` slot — the caller obtains the first (and only) value written. -/
def one_shot_recv (sends : List (Option String)) : Option (Option String) :=
  sends.head?

/-- The initial value of the Lifecycle Flag
(`Arc::new(AtomicBool::new(true))`, gui.rs:172). -/
def running_init : Bool := true

/-- The ctrl-c handler's write to the Lifecycle Flag
(`r.store(false, Ordering::SeqCst)`, gui.rs:174-176): unconditionally false,
whatever the current value. -/
def ctrlc_store (_ : Bool) : Bool := false

/-- The Lifecycle Flag's value after `n` interrupt deliveries: `running_init`
untouched, `ctrlc_store` applied once per interrupt. The handler is the
program's only writer after initialization. -/
def flagAfter : Nat → Bool
  | 0 => running_init
  | n + 1 => ctrlc_store (flagAfter n)

/-- Outcome of one `webview.step()` call (gui.rs:285): `Some(Ok(_))`,
`Some(Err(_))` (logged, loop continues), or `None` (UI host closed, loop
breaks). -/
inductive StepResult where
  | ok
  | err (e : String)
  | closed
deriving DecidableEq

/-- Observable steps of `spawn_gui`'s tail (gui.rs:284-298): pump-loop
iterations, then the UI host teardown (`webview.into_inner()`), then the join
of the Backend Worker thread (`bg.join()`). -/
inductive ShutdownStep where
  | pump
  | teardown
  | joinWorker
deriving DecidableEq

/-- The pump loop (gui.rs:284-294) over the sequence of (flag read, step
result) pairs it observes: while the flag reads true, perform an iteration;
`StepResult.closed` breaks out of the loop; a false flag read ends the loop
with no further iterations. -/
def pumpSteps : List (Bool × StepResult) → List ShutdownStep
  | [] => []
  | (flag, step) :: rest =>
      if flag then
        ShutdownStep.pump ::
          (match step with
           | .closed => []
           | _ => pumpSteps rest)
      else []

/-- The full tail of `spawn_gui` after the worker thread is spawned: the pump
loop, then teardown, then the worker join (gui.rs:284-298). -/
def spawn_gui_tail (reads : List (Bool × StepResult)) : List ShutdownStep :=
  pumpSteps reads ++ [ShutdownStep.teardown, ShutdownStep.joinWorker]

/-- Collaborator outcomes with validation and persistence both succeeding. -/
def envAllOk : Collaborators :=
  { validate := fun _ => .ok (), save := fun _ => .ok () }

/-- Collaborator outcomes whose `globset` validation rejects every snapshot. -/
def envBadPattern : Collaborators :=
  { validate := fun _ => .error "invalid glob", save := fun _ => .ok () }

/-- Collaborator outcomes with validation succeeding and persistence failing. -/
def envSaveFails : Collaborators :=
  { validate := fun _ => .ok (), save := fun _ => .error "disk full" }

/-- A concrete configuration state for witnesses. -/
def st0 : HandlerState :=
  { current := Config.default, persisted := Config.default }

/-- Claim C9: encoding any `GuiResponse` notification and decoding it on the
UI-side dispatcher yields a value equal in all fields to the original, and a
Status notification with the percentage absent encodes to a wire form
distinguishable from one with the percentage present as zero. -/
theorem notification_roundtrip_law :
    (∀ r : GuiResponse, decode (encode r) = some r) ∧
    (∀ s : String, encode (.Status s none) ≠ encode (.Status s (some 0))) := by
  constructor
  · intro r
    cases r <;> try rfl
    next s pct => cases pct <;> rfl
  · intro s
    simp [encode]

/-- Claim C1 counterexample: a Config notification produced by a
locally-handled SaveConfig command is delivered by `message_dispatch`, and
that delivery is not the double-encoded instruction
`Response.dispatch(JSON.parse(<s>))` with `<s>` the notification JSON
re-encoded as a string literal. -/
theorem config_notification_single_encoded :
    (invoke_handler envAllOk st0 (.ok (.SaveConfig true "lzx" "tmp"))).2 =
      [Effect.eval (message_dispatch_js (configResponse (mkSnapshot true "lzx" "tmp")))] ∧
    message_dispatch_js (configResponse (mkSnapshot true "lzx" "tmp")) ≠
      "Response.dispatch(JSON.parse(" ++
        strLit (serde_to_string (configResponse (mkSnapshot true "lzx" "tmp"))) ++ "))" := by
  exact ⟨rfl, by decide⟩

/-- Claim C1 (amended): every notification sent through the bridge's
`GuiWrapper::send` is the double-encoded instruction
`Response.dispatch(JSON.parse(<s>))`, `<s>` being the notification JSON
re-encoded a second time as a JSON string literal; but the Config
notifications emitted for the locally-handled SaveConfig/ResetConfig commands
go through `message_dispatch`, which delivers the single-encoded instruction
`Response.dispatch(<json>)`. -/
theorem bridge_send_double_encoded :
    (∀ msg : GuiResponse, send_js msg =
        "Response.dispatch(JSON.parse(" ++ strLit (serde_to_string msg) ++ "))") ∧
    (∀ (env : Collaborators) (st : HandlerState),
      (invoke_handler env st (.ok .ResetConfig)).2.head? =
        some (Effect.eval (message_dispatch_js (configResponse Config.default)))) ∧
    (∀ msg : GuiResponse, message_dispatch_js msg =
        "Response.dispatch(" ++ serde_to_string msg ++ ")") :=
  ⟨fun _ => rfl, fun _ _ => rfl, fun _ => rfl⟩

/-- Claim C2: a SaveConfig command whose exclude patterns fail the Config
collaborator's `globset` validation raises exactly one modal-error dialog,
emits zero Config notifications (zero effects besides the dialog), and leaves
both the in-memory and the persisted configuration unchanged. -/
theorem saveConfig_invalid_excludes (env : Collaborators) (st : HandlerState)
    (d : Bool) (c e msg : String)
    (h : env.validate (mkSnapshot d c e) = .error msg) :
    invoke_handler env st (.ok (.SaveConfig d c e)) =
      (st, [Effect.modalError "Settings Error" msg]) := by
  simp [invoke_handler, h]

/-- Witness for `saveConfig_invalid_excludes` at a concrete rejected input. -/
theorem saveConfig_invalid_excludes_witness :
    envBadPattern.validate (mkSnapshot true "lzx" "[") = .error "invalid glob" ∧
    invoke_handler envBadPattern st0 (.ok (.SaveConfig true "lzx" "[")) =
      (st0, [Effect.modalError "Settings Error" "invalid glob"]) :=
  ⟨rfl, saveConfig_invalid_excludes envBadPattern st0 true "lzx" "[" "invalid glob" rfl⟩

/-- Claim C4: an inbound raw message that fails to parse as a `GuiRequest` is
logged and dropped — the handler's state is unchanged, nothing is enqueued to
the command mailbox, and the handler returns normally (it is a total
function) with only the log effect. -/
theorem parse_failure_logged_and_dropped (env : Collaborators)
    (st : HandlerState) (err : String) :
    invoke_handler env st (.error err) = (st, [Effect.logUnhandled err]) ∧
    (∀ r : GuiRequest,
      Effect.enqueue r ∉ (invoke_handler env st (.error err)).2) := by
  refine ⟨rfl, fun r => ?_⟩
  simp [invoke_handler]

/-- Recognizer for notification-dispatch effects (`wv.eval`). -/
def Effect.isEval : Effect → Bool
  | .eval _ => true
  | _ => false

/-- Claim C3: a SaveConfig command with a valid payload replaces the
in-memory configuration with the normalized snapshot and emits exactly one
Config notification — reflecting the re-serialized compression name and
re-joined exclude list — as the first effect, before the persistence attempt;
if persisting succeeds the snapshot is also persisted and no further effect
occurs, and if persisting fails a modal error follows, but the notification
is not retracted and the in-memory replacement is not rolled back. -/
theorem saveConfig_valid_notify_then_persist (env : Collaborators)
    (st : HandlerState) (d : Bool) (c e : String)
    (h : env.validate (mkSnapshot d c e) = .ok ()) :
    (invoke_handler env st (.ok (.SaveConfig d c e))).1.current = mkSnapshot d c e ∧
    (invoke_handler env st (.ok (.SaveConfig d c e))).2.head? =
      some (Effect.eval (message_dispatch_js (configResponse (mkSnapshot d c e)))) ∧
    (invoke_handler env st (.ok (.SaveConfig d c e))).2.countP Effect.isEval = 1 ∧
    (match env.save (mkSnapshot d c e) with
     | .ok _ =>
        (invoke_handler env st (.ok (.SaveConfig d c e))).1.persisted =
          mkSnapshot d c e ∧
        (invoke_handler env st (.ok (.SaveConfig d c e))).2 =
          [Effect.eval (message_dispatch_js (configResponse (mkSnapshot d c e)))]
     | .error er =>
        (invoke_handler env st (.ok (.SaveConfig d c e))).1.persisted =
          st.persisted ∧
        (invoke_handler env st (.ok (.SaveConfig d c e))).2 =
          [Effect.eval (message_dispatch_js (configResponse (mkSnapshot d c e))),
           Effect.modalError "Settings Error" ("Error saving settings: " ++ er)]) := by
  rcases hs : env.save (mkSnapshot d c e) with u | er <;>
    simp [invoke_handler, saveConfigPath, h, hs, Effect.isEval,
      List.countP_cons, List.countP_nil]

/-- Witness for `saveConfig_valid_notify_then_persist` at a concrete input
whose persistence fails. -/
theorem saveConfig_valid_witness :
    envSaveFails.validate (mkSnapshot false "lzx" "a\nb") = .ok () ∧
    (invoke_handler envSaveFails st0
        (.ok (.SaveConfig false "lzx" "a\nb"))).1.current =
      mkSnapshot false "lzx" "a\nb" :=
  ⟨rfl,
   (saveConfig_valid_notify_then_persist envSaveFails st0 false "lzx" "a\nb" rfl).1⟩

/-- Claim C10: a SaveConfig command whose compression-scheme identifier fails
to parse raises no error and drops no message — the snapshot is silently
built with the default scheme, so the handler behaves exactly as if the
default scheme's canonical name had been submitted, and the resulting Config
notification and persisted configuration carry the default scheme rather
than the submitted identifier. -/
theorem saveConfig_unknown_compression_defaults (env : Collaborators)
    (st : HandlerState) (d : Bool) (c e : String)
    (h : Compression.parse c = none) :
    (mkSnapshot d c e).compression = Compression.default ∧
    invoke_handler env st (.ok (.SaveConfig d c e)) =
      invoke_handler env st (.ok (.SaveConfig d Compression.default.name e)) ∧
    (∀ msg, Effect.logUnhandled msg ∉
      (invoke_handler env st (.ok (.SaveConfig d c e))).2) ∧
    (∀ r, Effect.enqueue r ∉
      (invoke_handler env st (.ok (.SaveConfig d c e))).2) := by
  have hsnap : mkSnapshot d c e = mkSnapshot d Compression.default.name e := by
    simp [mkSnapshot, h]
    rfl
  refine ⟨by simp [mkSnapshot, h], by simp [invoke_handler, hsnap], ?_, ?_⟩ <;>
    intro x <;>
    rcases hv : env.validate (mkSnapshot d c e) with u | msg <;>
    rcases hs : env.save (mkSnapshot d c e) with u2 | er <;>
    simp [invoke_handler, saveConfigPath, hv, hs]

/-- Witness for `saveConfig_unknown_compression_defaults` at a concrete
unparsable identifier. -/
theorem saveConfig_unknown_compression_witness :
    Compression.parse "bogus" = none ∧
    (mkSnapshot true "bogus" "x").compression = Compression.default :=
  ⟨rfl,
   (saveConfig_unknown_compression_defaults envAllOk st0 true "bogus" "x" rfl).1⟩

/-- Enqueueing a command sequence that fits in the remaining capacity
succeeds with the commands appended in submission order. -/
theorem mailbox_enqueueAll_spec (cs : List GuiRequest) :
    ∀ m : Mailbox, m.entries.length + cs.length ≤ MAILBOX_CAPACITY →
      ∃ m2 : Mailbox, m.enqueueAll cs = some m2 ∧ m2.entries = m.entries ++ cs := by
  induction cs with
  | nil => exact fun m _ => ⟨m, rfl, by simp [Mailbox.enqueueAll]⟩
  | cons r rs ih =>
      intro m h
      have hlt : m.entries.length < MAILBOX_CAPACITY := by
        simp [List.length_cons] at h
        omega
      have henq : m.enqueue r = some ⟨m.entries ++ [r]⟩ := by
        simp [Mailbox.enqueue, hlt]
      obtain ⟨m2, hall, hent⟩ := ih ⟨m.entries ++ [r]⟩ (by
        simp [List.length_cons] at h ⊢
        omega)
      refine ⟨m2, ?_, ?_⟩
      · simp [Mailbox.enqueueAll, henq, hall]
      · simp [hent]

/-- With fuel covering the buffer, repeated dequeue yields exactly the
buffered entries, oldest first. -/
theorem mailbox_drainFuel_entries :
    ∀ (n : Nat) (m : Mailbox), m.entries.length ≤ n → drainFuel n m = m.entries := by
  intro n
  induction n with
  | zero =>
      intro m h
      have : m.entries = [] := List.eq_nil_of_length_eq_zero (Nat.le_zero.mp h)
      simp [drainFuel, this]
  | succ k ih =>
      intro m h
      rcases m with ⟨entries⟩
      cases entries with
      | nil => rfl
      | cons x xs =>
          simp only [drainFuel, Mailbox.dequeue]
          have : drainFuel k ⟨xs⟩ = xs := ih ⟨xs⟩ (by
            show xs.length ≤ k
            simp [List.length_cons] at h
            omega)
          simp [this]

/-- Claim C5: the command mailbox has fixed capacity 128 and is strictly
FIFO — any command sequence that fits is enqueued without loss or
reordering and is dequeued in exactly the submission order — and an enqueue
attempted while 128 entries are pending blocks the producer (makes no
progress), succeeding again once the consumer drains an entry. -/
theorem mailbox_capacity_fifo_blocking :
    MAILBOX_CAPACITY = 128 ∧
    (∀ cs : List GuiRequest, cs.length ≤ MAILBOX_CAPACITY →
      ∃ m : Mailbox, Mailbox.enqueueAll ⟨[]⟩ cs = some m ∧ m.drainAll = cs) ∧
    (∀ (m : Mailbox) (r : GuiRequest), m.entries.length = MAILBOX_CAPACITY →
      m.enqueue r = none ∧
      ∀ (x : GuiRequest) (m2 : Mailbox), m.dequeue = some (x, m2) →
        (m2.enqueue r).isSome) := by
  refine ⟨rfl, ?_, ?_⟩
  · intro cs h
    obtain ⟨m2, hall, hent⟩ := mailbox_enqueueAll_spec cs ⟨[]⟩ (by simpa)
    refine ⟨m2, hall, ?_⟩
    rw [Mailbox.drainAll, mailbox_drainFuel_entries _ _ le_rfl, hent]
    simp
  · intro m r h
    refine ⟨by simp [Mailbox.enqueue, h], ?_⟩
    intro x m2 hd
    rcases m with ⟨entries⟩
    cases entries with
    | nil => simp [Mailbox.dequeue] at hd
    | cons y ys =>
        simp only [Mailbox.dequeue, Option.some_inj, Prod.mk.injEq] at hd
        obtain ⟨-, hm2⟩ := hd
        have hlen : ys.length < MAILBOX_CAPACITY := by
          simp [List.length_cons] at h
          omega
        simp [← hm2, Mailbox.enqueue, hlen]

/-- Witness for `mailbox_capacity_fifo_blocking`: a concrete two-command
sequence round-trips in order, and a concrete full mailbox blocks enqueue. -/
theorem mailbox_witness :
    ([GuiRequest.Compress, GuiRequest.Pause] : List GuiRequest).length ≤
      MAILBOX_CAPACITY ∧
    (∃ m : Mailbox,
      Mailbox.enqueueAll ⟨[]⟩ [GuiRequest.Compress, GuiRequest.Pause] = some m ∧
      m.drainAll = [GuiRequest.Compress, GuiRequest.Pause]) ∧
    (Mailbox.mk (List.replicate MAILBOX_CAPACITY GuiRequest.Stop)).entries.length =
      MAILBOX_CAPACITY ∧
    (Mailbox.mk (List.replicate MAILBOX_CAPACITY GuiRequest.Stop)).enqueue
      GuiRequest.Compress = none :=
  ⟨by decide, mailbox_capacity_fifo_blocking.2.1 _ (by decide), by simp,
   (mailbox_capacity_fifo_blocking.2.2 _ GuiRequest.Compress (by simp)).1⟩

/-- Claim C6: constructing the UI bridge emits exactly two notifications,
unconditionally and in this order — the Version notification carrying the
static build identifiers, then the Config notification carrying the settings
snapshot read from the persistence collaborator — both through the
double-encoding `GuiWrapper::send`. -/
theorem gui_new_version_then_config (current : Config) :
    new_effects current =
      [Effect.eval (send_js version_response),
       Effect.eval (send_js (configResponse current))] ∧
    (new_effects current).length = 2 ∧
    version_response =
      .Version VERGEN_BUILD_DATE (CARGO_PKG_VERSION ++ "-" ++ VERGEN_SHA_SHORT) :=
  ⟨rfl, rfl, rfl⟩

/-- Claim C7: the UI-thread execution of the folder-choice query passes the
running program's own directory (empty when it cannot be determined) as the
picker's default starting location, and writes exactly one value to the
one-shot slot — the chosen path, or `none` when the picker is canceled or
fails — which the blocking caller receives. -/
theorem choose_folder_one_shot (env : FolderPickEnv) :
    (choose_folder_params env).default_folder = env.exe_dir.getD "" ∧
    (choose_folder_params env).title = "Select a directory" ∧
    choose_folder_sends env = [env.dialog_result.toOption] ∧
    (choose_folder_sends env).length = 1 ∧
    one_shot_recv (choose_folder_sends env) = some env.dialog_result.toOption :=
  ⟨rfl, rfl, rfl, rfl, rfl⟩

/-- Claim C8: the Lifecycle Flag starts as running; the interrupt handler's
store is the flag's only transition and is monotonic — once false the flag
never reads true again; the pump loop performs no further iterations after a
false read; and the tail of `spawn_gui` tears the UI host down and then joins
the worker thread. -/
theorem lifecycle_monotone_and_shutdown :
    running_init = true ∧
    (∀ b : Bool, ctrlc_store b = false) ∧
    (∀ n k : Nat, flagAfter n = false → flagAfter (n + k) = false) ∧
    (∀ (pre post : List (Bool × StepResult)) (s : StepResult),
      (pumpSteps (pre ++ (false, s) :: post)).length ≤ pre.length) ∧
    (∀ reads : List (Bool × StepResult),
      spawn_gui_tail reads =
        pumpSteps reads ++ [ShutdownStep.teardown, ShutdownStep.joinWorker]) := by
  refine ⟨rfl, fun _ => rfl, ?_, ?_, fun _ => rfl⟩
  · intro n k h
    cases n with
    | zero => simp [flagAfter, running_init] at h
    | succ n0 =>
        have hnk : n0 + 1 + k = (n0 + k) + 1 := by omega
        rw [hnk]
        rfl
  · intro pre post s
    induction pre with
    | nil => simp [pumpSteps]
    | cons p rest ih =>
        rcases p with ⟨b, sr⟩
        cases b
        · simp [pumpSteps]
        · cases sr <;> simp only [List.cons_append, pumpSteps, if_true,
            List.length_cons] <;> simp <;> omega

/-- Witness for `lifecycle_monotone_and_shutdown`: the flag is false after
one interrupt and stays false three deliveries later. -/
theorem lifecycle_witness :
    flagAfter 1 = false ∧ flagAfter (1 + 3) = false :=
  ⟨rfl, lifecycle_monotone_and_shutdown.2.2.1 1 3 rfl⟩
